import Mathlib

/-!
Verification development for the Zonos voice-cloning GUI (`src/gui.py`).

The file shallowly embeds the generation-job pipeline of the application:

* `MediaHandler.load_audio` — primary decode with an FFmpeg fallback run in a
  `NamedTemporaryFile` context manager (`gui.py` lines 108-128);
* `scan_preset_voices` — the preset-voice catalog scan (`gui.py` lines 130-137);
* `GenerationThread.run` — the background job body with its catch-all
  exception boundary (`gui.py` lines 149-168);
* the `VoiceCloneGUI` submission path: `generate_speech`, `set_ui_enabled`,
  `handle_voice_change`, `generation_complete`, `generation_error`
  (`gui.py` lines 298-419).

External collaborators (torchaudio, the FFmpeg subprocess, the Zonos model,
the filesystem) are modelled as explicit environments whose fields record the
outcome each collaborator produces during one call; raised Python exceptions
become `Except.error` values carrying the exception message.
-/

namespace ZonosGUI

/-! ## Media decoding (`MediaHandler.load_audio`, gui.py 108-128) -/

/-- Decoded PCM audio, abstract: `torchaudio.load` returns a tensor which the
pipeline only passes around, so a single opaque datum suffices. -/
abbrev Audio := Nat

/-- Outcome of the `subprocess.run` call for the FFmpeg fallback:
either the process terminated (with an exit code and captured stdout/stderr,
`check=True` raising `CalledProcessError` on a nonzero code), or it exceeded
`timeout` and `subprocess.run` raised `TimeoutExpired`. -/
inductive TranscodeOutcome where
  | completed (exitCode : Nat) (stdout : String) (stderr : String)
  | timedOut
deriving DecidableEq, Repr

/-- Environment of one `MediaHandler.load_audio` call: what each external
collaborator does during this call.  `primary p` is the result of
`torchaudio.load(p)` on the input path (a `(wav, sample_rate)` pair, or the
raised exception's message); `tmpDecode` is the result of
`torchaudio.load(tmpfile.name)` on the transcoded temporary file. -/
structure DecodeEnv where
  primary : String → Except String (Audio × Nat)
  resample : Audio → Nat → Nat → Audio
  tmpName : String
  transcode : TranscodeOutcome
  tmpDecode : Except String (Audio × Nat)

/-- Errors the decode chain can surface, one constructor per distinct Python
exception that can escape `load_audio`: `subprocess.TimeoutExpired`,
`subprocess.CalledProcessError` (which carries the captured stderr as an
attribute), and any other exception from the fallback decode. -/
inductive DecodeError where
  | timeout (msg : String)
  | transcodeFailed (msg : String) (stderr : String)
  | unknown (msg : String)
deriving DecidableEq, Repr

/-- Message of the exception as `str(e)` renders it in `GenerationThread.run`. -/
def DecodeError.message : DecodeError → String
  | .timeout m => m
  | .transcodeFailed m _ => m
  | .unknown m => m

/-- The FFmpeg command line built at gui.py 120-125. -/
def ffmpegCmd (filePath : String) (sampleRate : Nat) (tmp : String) : List String :=
  ["ffmpeg", "-y", "-i", filePath, "-ac", "1", "-ar", toString sampleRate, "-vn", "-f", "wav", tmp]

/-- Message of Python's `subprocess.TimeoutExpired`:
`Command ... timed out after N seconds`. -/
def timeoutMessage (cmd : List String) (timeout : Nat) : String :=
  "Command " ++ toString cmd ++ " timed out after " ++ toString timeout ++ " seconds"

/-- Message of Python's `subprocess.CalledProcessError`:
`Command ... returned non-zero exit status N.` -/
def calledProcessMessage (cmd : List String) (exitCode : Nat) : String :=
  "Command " ++ toString cmd ++ " returned non-zero exit status " ++ toString exitCode ++ "."

/-- Filesystem-visible events of one `load_audio` call: temporary-file
creation and deletion (the `NamedTemporaryFile` context manager) and the
fallback subprocess invocation. -/
inductive FsEvent where
  | tmpCreate (name : String)
  | procRun (cmd : List String)
  | tmpDelete (name : String)
deriving DecidableEq, Repr

/-- Temp files still on disk after a sequence of events. -/
def applyEvent (live : List String) : FsEvent → List String
  | .tmpCreate n => live ++ [n]
  | .tmpDelete n => live.erase n
  | .procRun _ => live

/-- Temp files alive after all events of a call have happened. -/
def liveTemps (events : List FsEvent) : List String :=
  events.foldl applyEvent []

/-- All temp files a call created. -/
def createdTemps (events : List FsEvent) : List String :=
  events.filterMap (fun e => match e with | .tmpCreate n => some n | _ => none)

namespace MediaHandler

/-- Embedding of `MediaHandler.load_audio` (gui.py 110-128).  Returns the
decode result together with the filesystem events of the call.  The primary
attempt is `torchaudio.load` plus a conditional resample; on any exception the
fallback opens a `NamedTemporaryFile` (whose context manager deletes the file
on every exit path, normal or exceptional), runs FFmpeg bounded by `timeout`
with `check=True`, and decodes the temporary file.  Exceptions escaping the
fallback (`TimeoutExpired`, `CalledProcessError`, or any decode failure on the
temporary file) propagate to the caller as the corresponding `DecodeError`. -/
def load_audio (env : DecodeEnv) (filePath : String) (sampleRate : Nat) (timeout : Nat) :
    Except DecodeError Audio × List FsEvent :=
  match env.primary filePath with
  | .ok (wav, sr) =>
      let wav := if sr ≠ sampleRate then env.resample wav sr sampleRate else wav
      (.ok wav, [])
  | .error _ =>
      let tmp := env.tmpName
      let cmd := ffmpegCmd filePath sampleRate tmp
      let events := [FsEvent.tmpCreate tmp, FsEvent.procRun cmd, FsEvent.tmpDelete tmp]
      match env.transcode with
      | .timedOut =>
          (.error (.timeout (timeoutMessage cmd timeout)), events)
      | .completed exitCode _ stderr =>
          if exitCode ≠ 0 then
            (.error (.transcodeFailed (calledProcessMessage cmd exitCode) stderr), events)
          else
            match env.tmpDecode with
            | .ok (wav, _) => (.ok wav, events)
            | .error e => (.error (.unknown e), events)

end MediaHandler

/-- Matching an ordinary list prefix, written out so the development does not
depend on library string-search helpers. -/
def leadsWith : List Char → List Char → Bool
  | [], _ => true
  | _ :: _, [] => false
  | a :: as, b :: bs => a == b && leadsWith as bs

/-- Whether `needle` occurs contiguously inside `haystack`. -/
def containsSub (needle : List Char) : List Char → Bool
  | [] => leadsWith needle []
  | b :: bs => leadsWith needle (b :: bs) || containsSub needle bs

/-- Whether a diagnostic message indicates possible file corruption, read as:
the message mentions corruption at all. -/
def mentionsCorruption (msg : String) : Bool :=
  containsSub "corrupt".toList msg.toList

/-! ## Voice catalog (`scan_preset_voices`, gui.py 130-137) -/

/-- A directory entry, split the way `pathlib` splits it: `stem` is the file
name without its final extension, `ext` the final extension without the dot
(empty for extension-less names).  `Path.glob("*.wav")` on a case-sensitive
(POSIX) filesystem matches exactly the entries with `ext = "wav"`. -/
structure FileEntry where
  stem : String
  ext : String
deriving DecidableEq, Repr

/-- The file name as it appears in the directory. -/
def FileEntry.name (f : FileEntry) : String :=
  if f.ext = "" then f.stem else f.stem ++ "." ++ f.ext

/-- Embedding of `str(file.absolute())` for a file inside `dir`. -/
def absPath (dir : String) (f : FileEntry) : String :=
  dir ++ "/" ++ f.name

/-- The glob patterns of gui.py 134, minus the `*.` part: the recognized
extensions, all lowercase as the source writes them. -/
def recognizedExtensions : List String :=
  ["wav", "mp3", "ogg", "flac", "mp4", "mov", "mkv", "webm"]

/-- Python `dict` assignment `voices[k] = v` on an insertion-ordered
association list: update the value in place if the key is present, append
otherwise. -/
def upsert : List (String × Option String) → String → Option String → List (String × Option String)
  | [], k, v => [(k, v)]
  | (k0, v0) :: m, k, v =>
      if k0 = k then (k0, v) :: m else (k0, v0) :: upsert m k v

/-- Python `dict.get k` on the association list. -/
def lookupName : List (String × Option String) → String → Option (Option String)
  | [], _ => none
  | (k0, v0) :: m, k => if k0 = k then some v0 else lookupName m k

/-- Keys of the association list, in insertion order. -/
def keysOf (m : List (String × Option String)) : List String :=
  m.map Prod.fst

/-- The body of the inner scan loop (gui.py 136):
`voices[file.stem] = str(file.absolute())`. -/
def stepFile (dir : String) (voices : List (String × Option String)) (f : FileEntry) :
    List (String × Option String) :=
  upsert voices f.stem (some (absPath dir f))

/-- Embedding of `scan_preset_voices` (gui.py 130-137).  `dirFiles` is the
directory listing of `presets_dir` (the function also creates the directory
with `mkdir(parents=True, exist_ok=True)`, an idempotent side effect not
tracked here).  The sentinel `"Custom Voice" -> None` is inserted before the
loop; each glob pattern then upserts every matching direct entry under its
stem.  Nothing re-asserts the sentinel after the loop. -/
def scan_preset_voices (presets_dir : String) (dirFiles : List FileEntry) :
    List (String × Option String) :=
  recognizedExtensions.foldl
    (fun voices e =>
      (dirFiles.filter (fun f => f.ext == e)).foldl (stepFile presets_dir) voices)
    [("Custom Voice", none)]

/-- The scanned files in the order the nested loops visit them: pattern by
pattern, each pattern visiting the matching directory entries in listing
order. -/
def ordFiles : List String → List FileEntry → List FileEntry
  | [], _ => []
  | e :: es, fs => fs.filter (fun f => f.ext == e) ++ ordFiles es fs

/-- The directory entries whose extension is recognized (in listing order). -/
def recognizedFiles (fs : List FileEntry) : List FileEntry :=
  fs.filter (fun f => recognizedExtensions.contains f.ext)

/-! ## Generation job (`GenerationThread`, gui.py 139-168) -/

/-- Speaker embedding, conditioning dictionary, prepared conditioning and
model codes are opaque values produced and consumed only by the external
inference service. -/
abbrev Embedding := Nat
abbrev CondDict := Nat
abbrev Prepared := Nat
abbrev Codes := Nat

/-- The immutable data a `GenerationThread` is constructed with
(gui.py 142-148, plus the two config entries the thread reads). -/
structure GenerationJob where
  audioPath : String
  text : String
  outputDir : String
  timeoutSeconds : Nat
deriving DecidableEq, Repr

/-- Environment of one `GenerationThread.run` call: the outcome of each
external step (Zonos model calls, directory creation, `torchaudio.save`,
and the decode environment the nested `load_audio` call sees).  Every field
returning `Except String` models a Python call that either returns or raises. -/
structure JobEnv where
  decodeEnv : DecodeEnv
  makeSpeakerEmbedding : Audio → Nat → Except String Embedding
  makeCondDict : String → Embedding → String → Except String CondDict
  prepareConditioning : CondDict → Except String Prepared
  generate : Prepared → Except String Codes
  autoencoderDecode : Codes → Except String Audio
  samplingRate : Nat
  mkdirOutput : String → Except String Unit
  timestamp : String
  save : String → Audio → Nat → Except String Unit
  absolutePath : String → String

/-- The Qt signals a finished job emits: `finished(str)` with the output path
on success, `error(str)` with the exception message on failure. -/
inductive Signal where
  | finished (outputPath : String)
  | error (msg : String)
deriving DecidableEq, Repr

namespace GenerationThread

/-- The `try` body of `GenerationThread.run` (gui.py 150-166): decode the
reference voice, derive the speaker embedding, build conditioning, generate,
decode the codes, create the output directory, and save to
`output_dir / "output_<timestamp>.wav"`.  Any step may fail, short-circuiting
with the raised message. -/
def runBody (env : JobEnv) (job : GenerationJob) : Except String String := do
  let wav ← (MediaHandler.load_audio env.decodeEnv job.audioPath 24000 job.timeoutSeconds).1.mapError
      DecodeError.message
  let speaker ← env.makeSpeakerEmbedding wav 24000
  let condDict ← env.makeCondDict job.text speaker "en-us"
  let prepared ← env.prepareConditioning condDict
  let codes ← env.generate prepared
  let wavs ← env.autoencoderDecode codes
  let _ ← env.mkdirOutput job.outputDir
  let outputFile := job.outputDir ++ "/output_" ++ env.timestamp ++ ".wav"
  let _ ← env.save outputFile wavs env.samplingRate
  pure (env.absolutePath outputFile)

/-- Embedding of `GenerationThread.run` (gui.py 149-168): the whole body sits
in a `try`/`except Exception` whose handler emits `error(str(e))`; the last
statement of the `try` emits `finished(path)`.  The returned list is the
sequence of signals the run emits. -/
def run (env : JobEnv) (job : GenerationJob) : List Signal :=
  match runBody env job with
  | .ok outPath => [.finished outPath]
  | .error e => [.error e]

end GenerationThread

/-! ## The submission surface (`VoiceCloneGUI`, gui.py 298-419) -/

/-- Result of a press of the Generate button.  `rejectedBusy` is the press
that never reaches `generate_speech` because `set_ui_enabled(False)` disabled
the button while a job is in flight; `rejectedInvalid` is one of the three
synchronous `QMessageBox.warning` early returns of `generate_speech`. -/
inductive SubmitResult where
  | accepted
  | rejectedBusy
  | rejectedInvalid (reason : String)
deriving DecidableEq, Repr

/-- The mutable state of `VoiceCloneGUI` that the submission path touches.
`uiEnabled` stands for the enabled state of the four widgets that
`set_ui_enabled` toggles together apart from the play button
(`voice_combo`, `browse_voice_btn`, `text_input`, `generate_btn`);
`playEnabled` is the play button, which `handle_voice_change` also toggles on
its own.  `thread` is the in-flight `GenerationThread`, if any. -/
structure GUIState where
  modelLoaded : Bool
  currentVoiceFile : Option String
  textInput : String
  uiEnabled : Bool
  playEnabled : Bool
  customEnabled : Bool
  availableVoices : List (String × Option String)
  voicePathLabel : String
  outputLink : String
  statusBar : String
  lastOutput : Option String
  thread : Option GenerationJob
  outputDir : String
  presetsDir : String
  timeoutSeconds : Nat
deriving DecidableEq, Repr

/-- The spec's `busy` flag: the job runner is busy exactly while the
submission UI is disabled (`set_ui_enabled(False)` runs at acceptance,
`set_ui_enabled(True)` at either delivery). -/
def busy (s : GUIState) : Bool := !s.uiEnabled

/-- Leading whitespace removal on a character list. -/
def dropLeadingWs : List Char → List Char
  | [] => []
  | c :: cs => if c.isWhitespace then dropLeadingWs cs else c :: cs

/-- Python's `str.strip()`: surrounding whitespace removed. -/
def pyStrip (s : String) : String :=
  ⟨(dropLeadingWs (dropLeadingWs s.toList).reverse).reverse⟩

/-- Embedding of `VoiceCloneGUI.set_ui_enabled` (gui.py 402-407). -/
def set_ui_enabled (s : GUIState) (enabled : Bool) : GUIState :=
  { s with uiEnabled := enabled, playEnabled := enabled }

/-- Embedding of `VoiceCloneGUI.generate_speech` (gui.py 376-401): the three
validation early-returns (model loaded, voice file selected, text non-empty
after `strip()`), then `set_ui_enabled(False)`, the status update, the
creation of the output directory (untracked idempotent side effect), and the
construction and start of the `GenerationThread`. -/
def generate_speech (s : GUIState) : GUIState × SubmitResult :=
  if !s.modelLoaded then (s, .rejectedInvalid "Model not loaded")
  else
    match s.currentVoiceFile with
    | none => (s, .rejectedInvalid "Please select a voice file")
    | some voiceFile =>
        let text := pyStrip s.textInput
        if text = "" then (s, .rejectedInvalid "Please enter some text")
        else
          let job : GenerationJob :=
            { audioPath := voiceFile, text := text,
              outputDir := s.outputDir, timeoutSeconds := s.timeoutSeconds }
          ({ set_ui_enabled s false with
              statusBar := "Generating speech...", thread := some job },
           .accepted)

/-- A press of the Generate button.  Qt delivers the `clicked` signal to
`generate_speech` only while `generate_btn` is enabled; while a job is in
flight the button is disabled, so the press does nothing: no handler runs, no
job is created, no state changes. -/
def clickGenerate (s : GUIState) : GUIState × SubmitResult :=
  if s.uiEnabled then generate_speech s else (s, .rejectedBusy)

/-- Embedding of `VoiceCloneGUI.handle_voice_change` (gui.py 298-314),
parametrised by the filesystem existence oracle used at
`Path(voice_file).exists()`. -/
def handle_voice_change (fileExists : String → Bool) (s : GUIState) (voiceName : String) :
    GUIState :=
  if voiceName = "Custom Voice" then
    { s with customEnabled := true, currentVoiceFile := none,
             voicePathLabel := "No file selected", playEnabled := false }
  else
    match (lookupName s.availableVoices voiceName).join with
    | some voiceFile =>
        if fileExists voiceFile then
          { s with customEnabled := false, currentVoiceFile := some voiceFile,
                   voicePathLabel := voiceFile, playEnabled := true }
        else
          { s with customEnabled := false, currentVoiceFile := none,
                   voicePathLabel := "Preset file not found", playEnabled := false }
    | none =>
        { s with customEnabled := false, currentVoiceFile := none,
                 voicePathLabel := "Preset file not found", playEnabled := false }

/-- Embedding of `VoiceCloneGUI.generation_complete` (gui.py 408-415);
`relativeToHome` stands for `Path(output_file).relative_to(Path.home())`.
`set_ui_enabled(True)` is the first statement of the slot. -/
def generation_complete (relativeToHome : String → String) (s : GUIState)
    (outputFile : String) : GUIState :=
  let s := set_ui_enabled s true
  { s with lastOutput := some outputFile,
           outputLink := "Click to play: ~/" ++ relativeToHome outputFile,
           statusBar := "Output saved to: " ++ outputFile }

/-- Embedding of `VoiceCloneGUI.generation_error` (gui.py 416-419);
`set_ui_enabled(True)` is the first statement of the slot. -/
def generation_error (s : GUIState) (_errorMsg : String) : GUIState :=
  let s := set_ui_enabled s true
  { s with statusBar := "Generation failed" }

/-- Dispatch of a job's terminal signal to the slot it is connected to
(gui.py 399-400). -/
def deliver (relativeToHome : String → String) (s : GUIState) : Signal → GUIState
  | .finished p => generation_complete relativeToHome s p
  | .error m => generation_error s m

/-! ## Estimated cost -/

/-- Modelled from the spec: neither `estimate_cost` nor `MODEL_MAX` appears
anywhere in `src/gui.py`; the spec requires the core to expose
`estimate_cost(text) = min(len(text) / 4, MODEL_MAX)` returning an integer,
for a fixed but unspecified ceiling `MODEL_MAX` (taken here as a parameter). -/
def estimate_cost (modelMax : Nat) (text : String) : Nat :=
  min (text.length / 4) modelMax

/-! ## Concrete instances used to exercise the theorems -/

/-- A decode environment whose primary decode fails and whose FFmpeg run
exceeds its timeout. -/
def envT : DecodeEnv :=
  { primary := fun _ => .error "Failed to load audio",
    resample := fun a _ _ => a,
    tmpName := "/tmp/tmpa1b2.wav",
    transcode := .timedOut,
    tmpDecode := .error "unreachable" }

/-- A decode environment whose primary decode fails and whose FFmpeg run
exits with status 1. -/
def envC : DecodeEnv :=
  { primary := fun _ => .error "Failed to load audio",
    resample := fun a _ _ => a,
    tmpName := "/tmp/tmpc3d4.wav",
    transcode := .completed 1 "" "ffmpeg: invalid data found when processing input",
    tmpDecode := .error "unreachable" }

/-- A decode environment whose FFmpeg run succeeds but whose decode of the
transcoded temporary file fails. -/
def envU : DecodeEnv :=
  { primary := fun _ => .error "Failed to load audio",
    resample := fun a _ _ => a,
    tmpName := "/tmp/tmpg7h8.wav",
    transcode := .completed 0 "" "",
    tmpDecode := .error "Error opening tmp wav" }

/-- A decode environment whose primary decode fails because the input path
does not exist; the transcoder is then invoked against the same path and
also fails. -/
def envMissing : DecodeEnv :=
  { primary := fun _ => .error "No such file or directory",
    resample := fun a _ _ => a,
    tmpName := "/tmp/tmpe5f6.wav",
    transcode := .completed 1 "" "ffmpeg: no such file",
    tmpDecode := .error "unreachable" }

/-- A decode environment for a fully successful run. -/
def envDecOk : DecodeEnv :=
  { primary := fun _ => .ok (7, 24000),
    resample := fun a _ _ => a,
    tmpName := "/tmp/tmpi9j0.wav",
    transcode := .completed 0 "" "",
    tmpDecode := .ok (7, 24000) }

/-- A GUI state ready to submit: model loaded, a voice selected, text typed. -/
def baseState : GUIState :=
  { modelLoaded := true,
    currentVoiceFile := some "/presets/alice.wav",
    textInput := "  hello world  ",
    uiEnabled := true,
    playEnabled := true,
    customEnabled := false,
    availableVoices := [("Custom Voice", none), ("alice", some "/presets/alice.wav")],
    voicePathLabel := "/presets/alice.wav",
    outputLink := "No output generated yet",
    statusBar := "Ready",
    lastOutput := none,
    thread := none,
    outputDir := "/out",
    presetsDir := "/presets",
    timeoutSeconds := 30 }

/-- The same state while a job is in flight (`set_ui_enabled(False)` ran). -/
def busyState : GUIState :=
  { baseState with uiEnabled := false }

/-- A ready state whose selected voice path points to no existing file. -/
def ghostState : GUIState :=
  { baseState with currentVoiceFile := some "/home/user/ghost.wav",
                   voicePathLabel := "/home/user/ghost.wav" }

/-- A ready state with no voice selected; its catalog lists a preset whose
file has been deleted. -/
def missingVoiceState : GUIState :=
  { baseState with currentVoiceFile := none,
                   availableVoices := [("Custom Voice", none), ("alice", some "/presets/ghost.wav")] }

/-- A filesystem on which no path exists. -/
def noFile : String → Bool := fun _ => false

/-- A job as `generate_speech` constructs it from `baseState`. -/
def job0 : GenerationJob :=
  { audioPath := "/presets/alice.wav", text := "hello world",
    outputDir := "/out", timeoutSeconds := 30 }

/-- A job environment in which every step succeeds. -/
def jobEnvOk : JobEnv :=
  { decodeEnv := envDecOk,
    makeSpeakerEmbedding := fun _ _ => .ok 1,
    makeCondDict := fun _ _ _ => .ok 2,
    prepareConditioning := fun _ => .ok 3,
    generate := fun _ => .ok 4,
    autoencoderDecode := fun _ => .ok 5,
    samplingRate := 44100,
    mkdirOutput := fun _ => .ok (),
    timestamp := "20250101_120000",
    save := fun _ _ _ => .ok (),
    absolutePath := fun p => p }

/-- A job environment in which the speaker-embedding step raises. -/
def jobEnvFail : JobEnv :=
  { jobEnvOk with makeSpeakerEmbedding := fun _ _ => .error "boom" }

/-! # Theorems -/

/-! ## Media decoding -/

/-- Whenever the primary decode fails, the fallback runs inside the temporary
file's scope: create, run FFmpeg, delete — in that order, on every branch. -/
theorem fallback_events (env : DecodeEnv) (filePath : String) (sampleRate timeout : Nat)
    (e : String) (hp : env.primary filePath = Except.error e) :
    (MediaHandler.load_audio env filePath sampleRate timeout).2 =
      [FsEvent.tmpCreate env.tmpName,
       FsEvent.procRun (ffmpegCmd filePath sampleRate env.tmpName),
       FsEvent.tmpDelete env.tmpName] := by
  unfold MediaHandler.load_audio
  rw [hp]
  cases htr : env.transcode with
  | timedOut => rfl
  | completed exitCode out stderr =>
    by_cases hc : exitCode = 0
    · subst hc
      cases htd : env.tmpDecode with
      | ok a => simp
      | error e2 => simp
    · simp [hc]

/-- Claim C5 — for every call that takes the fallback path, exactly one
temporary file is created, and it no longer exists after the call returns,
on every exit path (success, decode failure of the transcoded file,
transcoder failure, timeout). -/
theorem fallback_temp_scoped (env : DecodeEnv) (filePath : String) (sampleRate timeout : Nat)
    (e : String) (hp : env.primary filePath = Except.error e) :
    createdTemps (MediaHandler.load_audio env filePath sampleRate timeout).2 = [env.tmpName] ∧
    liveTemps (MediaHandler.load_audio env filePath sampleRate timeout).2 = [] := by
  rw [fallback_events env filePath sampleRate timeout e hp]
  refine ⟨rfl, ?_⟩
  simp [liveTemps, applyEvent, List.erase_cons_head]

/-- Witness for C5: a concrete fallback run (transcoder exits nonzero)
creates exactly the one temporary file and leaves nothing behind. -/
theorem fallback_temp_scoped_witness :
    createdTemps (MediaHandler.load_audio envC "/voices/clip.mp4" 24000 30).2 =
      ["/tmp/tmpc3d4.wav"] ∧
    liveTemps (MediaHandler.load_audio envC "/voices/clip.mp4" 24000 30).2 = [] :=
  fallback_temp_scoped envC "/voices/clip.mp4" 24000 30 "Failed to load audio" rfl

/-- Counterexample to C6 as stated: on a concrete timed-out fallback the
error is indeed a timeout, but its message — the message of Python's
`subprocess.TimeoutExpired` — mentions no possible file corruption. -/
theorem timeout_message_cex :
    (MediaHandler.load_audio envT "/voices/clip.mp4" 24000 30).1 =
      Except.error (DecodeError.timeout
        (timeoutMessage (ffmpegCmd "/voices/clip.mp4" 24000 "/tmp/tmpa1b2.wav") 30)) ∧
    mentionsCorruption
      (timeoutMessage (ffmpegCmd "/voices/clip.mp4" 24000 "/tmp/tmpa1b2.wav") 30) = false := by
  exact ⟨rfl, by decide⟩

/-- Claim C6 amended — on the fallback path: exceeding the timeout yields
`DecodeError.timeout` carrying the transcoder-timeout diagnostic (command and
timeout duration; nothing about corruption); a nonzero exit yields
`DecodeError.transcodeFailed` carrying the captured stderr; a failure to
decode the transcoded file yields `DecodeError.unknown`. -/
theorem fallback_error_kinds (env : DecodeEnv) (filePath : String) (sampleRate timeout : Nat)
    (e : String) (hp : env.primary filePath = Except.error e) :
    (env.transcode = TranscodeOutcome.timedOut →
      (MediaHandler.load_audio env filePath sampleRate timeout).1 =
        Except.error (DecodeError.timeout
          (timeoutMessage (ffmpegCmd filePath sampleRate env.tmpName) timeout))) ∧
    (∀ exitCode out stderr,
      env.transcode = TranscodeOutcome.completed exitCode out stderr → exitCode ≠ 0 →
      (MediaHandler.load_audio env filePath sampleRate timeout).1 =
        Except.error (DecodeError.transcodeFailed
          (calledProcessMessage (ffmpegCmd filePath sampleRate env.tmpName) exitCode) stderr)) ∧
    (∀ out stderr e2,
      env.transcode = TranscodeOutcome.completed 0 out stderr →
      env.tmpDecode = Except.error e2 →
      (MediaHandler.load_audio env filePath sampleRate timeout).1 =
        Except.error (DecodeError.unknown e2)) := by
  refine ⟨?_, ?_, ?_⟩
  · intro htr
    unfold MediaHandler.load_audio
    rw [hp, htr]
  · intro exitCode out stderr htr hc
    unfold MediaHandler.load_audio
    rw [hp, htr]
    simp [hc]
  · intro out stderr e2 htr htd
    unfold MediaHandler.load_audio
    rw [hp, htr]
    simp [htd]

/-- Witness for C6 (amended): the three failure kinds on concrete runs. -/
theorem fallback_error_kinds_witness :
    (MediaHandler.load_audio envT "/voices/clip.mp4" 24000 30).1 =
      Except.error (DecodeError.timeout
        (timeoutMessage (ffmpegCmd "/voices/clip.mp4" 24000 "/tmp/tmpa1b2.wav") 30)) ∧
    (MediaHandler.load_audio envC "/voices/clip.mp4" 24000 30).1 =
      Except.error (DecodeError.transcodeFailed
        (calledProcessMessage (ffmpegCmd "/voices/clip.mp4" 24000 "/tmp/tmpc3d4.wav") 1)
        "ffmpeg: invalid data found when processing input") ∧
    (MediaHandler.load_audio envU "/voices/clip.mp4" 24000 30).1 =
      Except.error (DecodeError.unknown "Error opening tmp wav") :=
  ⟨(fallback_error_kinds envT "/voices/clip.mp4" 24000 30 "Failed to load audio" rfl).1 rfl,
   (fallback_error_kinds envC "/voices/clip.mp4" 24000 30 "Failed to load audio" rfl).2.1
     1 "" "ffmpeg: invalid data found when processing input" rfl (by decide),
   (fallback_error_kinds envU "/voices/clip.mp4" 24000 30 "Failed to load audio" rfl).2.2
     "" "" "Error opening tmp wav" rfl rfl⟩

/-- Claim C10 — any primary-decode failure (including one caused by the path
not existing) triggers the fallback, so the external transcoder is invoked
against the path; the code has no pre-check distinguishing a missing file. -/
theorem fallback_on_primary_failure (env : DecodeEnv) (filePath : String)
    (sampleRate timeout : Nat) (e : String)
    (hp : env.primary filePath = Except.error e) :
    FsEvent.procRun (ffmpegCmd filePath sampleRate env.tmpName) ∈
      (MediaHandler.load_audio env filePath sampleRate timeout).2 := by
  rw [fallback_events env filePath sampleRate timeout e hp]
  simp

/-- Witness for C10: decoding a nonexistent path (primary fails with the
no-such-file message) still runs FFmpeg against that very path. -/
theorem fallback_on_primary_failure_witness :
    FsEvent.procRun (ffmpegCmd "/voices/gone.wav" 24000 "/tmp/tmpe5f6.wav") ∈
      (MediaHandler.load_audio envMissing "/voices/gone.wav" 24000 30).2 :=
  fallback_on_primary_failure envMissing "/voices/gone.wav" 24000 30
    "No such file or directory" rfl

/-! ## Generation job and delivery -/

/-- Claim C2 — every accepted job emits exactly one terminal signal, either
`finished` with the output path or `error` with the exception message; every
failure of the body is converted to that single `error` signal at the
`try`/`except` boundary; and either slot re-enables the UI (resets `busy` to
`false`) upon delivery. -/
theorem job_outcome_exactly_once (env : JobEnv) (job : GenerationJob)
    (relativeToHome : String → String) (s : GUIState) :
    ((∃ p, GenerationThread.run env job = [Signal.finished p]) ∨
      (∃ m, GenerationThread.run env job = [Signal.error m])) ∧
    (GenerationThread.run env job).length = 1 ∧
    (∀ p, GenerationThread.runBody env job = Except.ok p →
      GenerationThread.run env job = [Signal.finished p]) ∧
    (∀ m, GenerationThread.runBody env job = Except.error m →
      GenerationThread.run env job = [Signal.error m]) ∧
    (∀ sig, busy (deliver relativeToHome s sig) = false) := by
  refine ⟨?_, ?_, ?_, ?_, ?_⟩
  · unfold GenerationThread.run
    cases h : GenerationThread.runBody env job with
    | ok p => exact Or.inl ⟨p, rfl⟩
    | error m => exact Or.inr ⟨m, rfl⟩
  · unfold GenerationThread.run
    cases h : GenerationThread.runBody env job <;> rfl
  · intro p h
    unfold GenerationThread.run
    rw [h]
  · intro m h
    unfold GenerationThread.run
    rw [h]
  · intro sig
    cases sig <;>
      simp [deliver, generation_complete, generation_error, set_ui_enabled, busy]

/-- Witness for C2: a fully successful concrete run emits exactly the one
`finished` signal; a run whose embedding step raises emits exactly the one
`error` signal; delivery resets `busy`. -/
theorem job_outcome_exactly_once_witness :
    GenerationThread.run jobEnvOk job0 = [Signal.finished "/out/output_20250101_120000.wav"] ∧
    GenerationThread.run jobEnvFail job0 = [Signal.error "boom"] ∧
    busy (deliver (fun p => p) busyState (Signal.finished "/out/output_20250101_120000.wav")) =
      false :=
  ⟨(job_outcome_exactly_once jobEnvOk job0 (fun p => p) busyState).2.2.1
      "/out/output_20250101_120000.wav" rfl,
   (job_outcome_exactly_once jobEnvFail job0 (fun p => p) busyState).2.2.2.1 "boom" rfl,
   (job_outcome_exactly_once jobEnvOk job0 (fun p => p) busyState).2.2.2.2
      (Signal.finished "/out/output_20250101_120000.wav")⟩

/-! ## Submission -/

/-- Claim C1 — single flight: a Generate press while a job is in flight
(`busy = true`, i.e. the UI is disabled) does nothing: no job, no state
change, a bare busy rejection.  A press while idle, on a valid request, runs
`generate_speech`, which disables the UI (sets `busy = true`), schedules
exactly the one job built from the request, and returns accepted immediately. -/
theorem submit_single_flight (s : GUIState) :
    (busy s = true → clickGenerate s = (s, SubmitResult.rejectedBusy)) ∧
    (busy s = false → s.modelLoaded = true →
      ∀ voiceFile, s.currentVoiceFile = some voiceFile → pyStrip s.textInput ≠ "" →
      clickGenerate s =
        ({ set_ui_enabled s false with
            statusBar := "Generating speech...",
            thread := some { audioPath := voiceFile, text := pyStrip s.textInput,
                             outputDir := s.outputDir,
                             timeoutSeconds := s.timeoutSeconds } },
         SubmitResult.accepted) ∧
      busy (clickGenerate s).1 = true) := by
  constructor
  · intro h
    have hu : s.uiEnabled = false := by simpa [busy] using h
    simp [clickGenerate, hu]
  · intro h hm voiceFile hv ht
    have hu : s.uiEnabled = true := by simpa [busy] using h
    have heq : clickGenerate s =
        ({ set_ui_enabled s false with
            statusBar := "Generating speech...",
            thread := some { audioPath := voiceFile, text := pyStrip s.textInput,
                             outputDir := s.outputDir,
                             timeoutSeconds := s.timeoutSeconds } },
         SubmitResult.accepted) := by
      simp [clickGenerate, hu, generate_speech, hm, hv, ht]
    refine ⟨heq, ?_⟩
    rw [heq]
    simp [busy, set_ui_enabled]

/-- Witness for C1: a press on the concrete busy state is dropped unchanged;
a press on the concrete ready state is accepted, disables the UI, and
schedules the job built from the trimmed text and selected voice. -/
theorem submit_single_flight_witness :
    clickGenerate busyState = (busyState, SubmitResult.rejectedBusy) ∧
    clickGenerate baseState =
      ({ set_ui_enabled baseState false with
          statusBar := "Generating speech...",
          thread := some { audioPath := "/presets/alice.wav",
                           text := pyStrip baseState.textInput,
                           outputDir := baseState.outputDir,
                           timeoutSeconds := baseState.timeoutSeconds } },
       SubmitResult.accepted) ∧
    busy (clickGenerate baseState).1 = true :=
  ⟨(submit_single_flight busyState).1 rfl,
   ((submit_single_flight baseState).2 rfl rfl "/presets/alice.wav" rfl (by decide)).1,
   ((submit_single_flight baseState).2 rfl rfl "/presets/alice.wav" rfl (by decide)).2⟩

/-- Counterexample to C3 as stated: in a concrete state whose selected voice
path exists on no filesystem at all, submission is nonetheless accepted — a
job is scheduled and `busy` becomes `true`; `generate_speech` never consults
the filesystem, so no synchronous voice-not-found rejection exists. -/
theorem submit_accepts_missing_voice_cex :
    noFile "/home/user/ghost.wav" = false ∧
    ghostState.currentVoiceFile = some "/home/user/ghost.wav" ∧
    busy ghostState = false ∧
    (clickGenerate ghostState).2 = SubmitResult.accepted ∧
    busy (clickGenerate ghostState).1 = true ∧
    (clickGenerate ghostState).1.thread ≠ none := by
  refine ⟨rfl, rfl, rfl, ?_, ?_, ?_⟩ <;> decide

/-- Claim C3 amended — `generate_speech` validates synchronously that the
model is loaded, a voice file is selected, and the text is non-empty after
trimming; each failure is a rejection distinct from the busy rejection, with
the state unchanged (so no job is scheduled and `busy` stays `false`).
Existence of the voice file is not checked at submission; it is checked when
a preset is chosen (`handle_voice_change`), which clears the selection when
the preset's file does not exist, so a subsequent press hits the
voice-missing rejection. -/
theorem submit_validation (s : GUIState) (hb : busy s = false) :
    ((s.modelLoaded = false ∨ s.currentVoiceFile = none ∨ pyStrip s.textInput = "") →
      ∃ r, clickGenerate s = (s, SubmitResult.rejectedInvalid r)) ∧
    (∀ r, SubmitResult.rejectedInvalid r ≠ SubmitResult.rejectedBusy) ∧
    (∀ fileExists voiceName voiceFile,
      voiceName ≠ "Custom Voice" →
      lookupName s.availableVoices voiceName = some (some voiceFile) →
      fileExists voiceFile = false →
      (handle_voice_change fileExists s voiceName).currentVoiceFile = none) := by
  have hu : s.uiEnabled = true := by simpa [busy] using hb
  refine ⟨?_, ?_, ?_⟩
  · intro h
    rcases h with h | h | h
    · exact ⟨"Model not loaded", by simp [clickGenerate, hu, generate_speech, h]⟩
    · cases hm : s.modelLoaded with
      | false => exact ⟨"Model not loaded", by simp [clickGenerate, hu, generate_speech, hm]⟩
      | true =>
        exact ⟨"Please select a voice file", by simp [clickGenerate, hu, generate_speech, hm, h]⟩
    · cases hm : s.modelLoaded with
      | false => exact ⟨"Model not loaded", by simp [clickGenerate, hu, generate_speech, hm]⟩
      | true =>
        cases hv : s.currentVoiceFile with
        | none =>
          exact ⟨"Please select a voice file",
            by simp [clickGenerate, hu, generate_speech, hm, hv]⟩
        | some voiceFile =>
          exact ⟨"Please enter some text",
            by simp [clickGenerate, hu, generate_speech, hm, hv, h]⟩
  · intro r
    simp
  · intro fileExists voiceName voiceFile hvn hlk hfe
    simp [handle_voice_change, hvn, hlk, Option.join, hfe]

/-- Witness for C3 (amended): the concrete no-voice state is rejected
synchronously with an invalid-request reason, and choosing a preset whose
file is gone clears the selection. -/
theorem submit_validation_witness :
    (∃ r, clickGenerate missingVoiceState = (missingVoiceState, SubmitResult.rejectedInvalid r)) ∧
    (handle_voice_change noFile missingVoiceState "alice").currentVoiceFile = none :=
  ⟨(submit_validation missingVoiceState rfl).1 (Or.inr (Or.inl rfl)),
   (submit_validation missingVoiceState rfl).2.2 noFile "alice" "/presets/ghost.wav"
     (by decide) rfl rfl⟩

/-! ## Estimated cost -/

/-- Claim C9 — the spec-modelled `estimate_cost` returns `0` on the empty
string, is monotonically non-decreasing in the text length, and is clamped at
the ceiling. -/
theorem estimate_cost_spec (modelMax : Nat) :
    estimate_cost modelMax "" = 0 ∧
    (∀ t u : String, t.length ≤ u.length →
      estimate_cost modelMax t ≤ estimate_cost modelMax u) ∧
    (∀ t : String, estimate_cost modelMax t ≤ modelMax) := by
  refine ⟨?_, ?_, ?_⟩
  · simp [estimate_cost]
  · intro t u h
    exact min_le_min (Nat.div_le_div_right h) le_rfl
  · intro t
    exact min_le_right _ _

/-- Witness for C9 at a concrete ceiling and concrete texts. -/
theorem estimate_cost_spec_witness :
    estimate_cost 100 "" = 0 ∧
    estimate_cost 100 "ab" ≤ estimate_cost 100 "abcdefgh" ∧
    estimate_cost 100 "xyz" ≤ 100 :=
  ⟨(estimate_cost_spec 100).1,
   (estimate_cost_spec 100).2.1 "ab" "abcdefgh" (by decide),
   (estimate_cost_spec 100).2.2 "xyz"⟩

/-! ## Voice catalog: association-list and scan-loop lemmas -/

theorem keysOf_cons (p : String × Option String) (m : List (String × Option String)) :
    keysOf (p :: m) = p.1 :: keysOf m := rfl

theorem mem_keysOf_upsert (m : List (String × Option String)) (k : String) (v : Option String)
    (a : String) :
    a ∈ keysOf (upsert m k v) ↔ a = k ∨ a ∈ keysOf m := by
  induction m with
  | nil => simp [upsert, keysOf]
  | cons p m ih =>
    obtain ⟨k0, v0⟩ := p
    by_cases h : k0 = k
    · subst h
      simp [upsert, keysOf_cons]
    · simp only [upsert, if_neg h, keysOf_cons, List.mem_cons, ih]
      tauto

theorem lookupName_upsert_ne (m : List (String × Option String)) (k : String) (v : Option String)
    (a : String) (h : a ≠ k) :
    lookupName (upsert m k v) a = lookupName m a := by
  induction m with
  | nil => simp [upsert, lookupName, Ne.symm h]
  | cons p m ih =>
    obtain ⟨k0, v0⟩ := p
    by_cases h0 : k0 = k
    · subst h0
      simp [upsert, lookupName, Ne.symm h]
    · rw [show upsert ((k0, v0) :: m) k v = (k0, v0) :: upsert m k v from by simp [upsert, h0]]
      by_cases hk : k0 = a
      · simp [lookupName, hk]
      · simp [lookupName, hk, ih]

theorem upsert_of_not_mem_keys (m : List (String × Option String)) (k : String)
    (v : Option String) (h : k ∉ keysOf m) :
    upsert m k v = m ++ [(k, v)] := by
  induction m with
  | nil => simp [upsert]
  | cons p m ih =>
    obtain ⟨k0, v0⟩ := p
    rw [keysOf_cons] at h
    simp only [List.mem_cons, not_or] at h
    simp [upsert, Ne.symm h.1, ih h.2]

theorem mem_keysOf_foldFiles (d : String) (files : List FileEntry)
    (m : List (String × Option String)) (a : String) :
    a ∈ keysOf (files.foldl (stepFile d) m) ↔
      a ∈ keysOf m ∨ ∃ f ∈ files, f.stem = a := by
  induction files generalizing m with
  | nil => simp
  | cons f files ih =>
    rw [List.foldl_cons, ih]
    simp only [stepFile, mem_keysOf_upsert, List.mem_cons]
    constructor
    · rintro ((h | h) | ⟨g, hg, hst⟩)
      · exact Or.inr ⟨f, Or.inl rfl, h.symm⟩
      · exact Or.inl h
      · exact Or.inr ⟨g, Or.inr hg, hst⟩
    · rintro (h | ⟨g, (rfl | hg), hst⟩)
      · exact Or.inl (Or.inr h)
      · exact Or.inl (Or.inl hst.symm)
      · exact Or.inr ⟨g, hg, hst⟩

theorem lookupName_foldFiles (d : String) (files : List FileEntry)
    (m : List (String × Option String)) (a : String) :
    (∀ f ∈ files, f.stem ≠ a) →
    lookupName (files.foldl (stepFile d) m) a = lookupName m a := by
  induction files generalizing m with
  | nil => intro _; rfl
  | cons f files ih =>
    intro h
    rw [List.foldl_cons, ih _ (fun g hg => h g (List.mem_cons_of_mem _ hg))]
    exact lookupName_upsert_ne m f.stem _ a (Ne.symm (h f (List.mem_cons_self f files)))

theorem keysOf_append (m m' : List (String × Option String)) :
    keysOf (m ++ m') = keysOf m ++ keysOf m' := by
  simp [keysOf]

theorem foldFiles_append (d : String) (files : List FileEntry)
    (m : List (String × Option String)) :
    (∀ f ∈ files, f.stem ∉ keysOf m) → (files.map FileEntry.stem).Nodup →
    files.foldl (stepFile d) m = m ++ files.map (fun f => (f.stem, some (absPath d f))) := by
  induction files generalizing m with
  | nil => intro _ _; simp
  | cons f files ih =>
    intro hfresh hnodup
    rw [List.map_cons, List.nodup_cons] at hnodup
    have hstep : stepFile d m f = m ++ [(f.stem, some (absPath d f))] :=
      upsert_of_not_mem_keys m f.stem _ (hfresh f (List.mem_cons_self f files))
    rw [List.foldl_cons, hstep, ih]
    · simp
    · intro g hg
      rw [keysOf_append]
      simp only [List.mem_append, not_or]
      refine ⟨hfresh g (List.mem_cons_of_mem _ hg), ?_⟩
      have hgne : g.stem ≠ f.stem := by
        intro hcontra
        exact hnodup.1 (hcontra ▸ List.mem_map_of_mem FileEntry.stem hg)
      simp [keysOf, hgne]
    · exact hnodup.2

theorem foldl_pattern_loop (d : String) (fs : List FileEntry) (pats : List String)
    (m : List (String × Option String)) :
    pats.foldl
      (fun voices e => (fs.filter (fun f => f.ext == e)).foldl (stepFile d) voices) m =
    (ordFiles pats fs).foldl (stepFile d) m := by
  induction pats generalizing m with
  | nil => rfl
  | cons e pats ih =>
    rw [List.foldl_cons, ih, ordFiles, List.foldl_append]

theorem scan_eq_foldl_ordFiles (d : String) (fs : List FileEntry) :
    scan_preset_voices d fs =
      (ordFiles recognizedExtensions fs).foldl (stepFile d) [("Custom Voice", none)] :=
  foldl_pattern_loop d fs recognizedExtensions [("Custom Voice", none)]

theorem mem_ordFiles (pats : List String) (fs : List FileEntry) (f : FileEntry) :
    f ∈ ordFiles pats fs ↔ f ∈ fs ∧ f.ext ∈ pats := by
  induction pats with
  | nil => simp [ordFiles]
  | cons e pats ih =>
    simp only [ordFiles, List.mem_append, List.mem_filter, ih, beq_iff_eq, List.mem_cons]
    tauto

theorem ordFiles_nil (pats : List String) : ordFiles pats [] = [] := by
  induction pats with
  | nil => rfl
  | cons e pats ih => simp [ordFiles, ih]

theorem ordFiles_cons_perm (pats : List String) (f : FileEntry) (fs : List FileEntry) :
    pats.Nodup →
    List.Perm (ordFiles pats (f :: fs))
      (if f.ext ∈ pats then f :: ordFiles pats fs else ordFiles pats fs) := by
  induction pats with
  | nil => intro _; simp [ordFiles]
  | cons e pats ih =>
    intro hp
    rw [List.nodup_cons] at hp
    have ihh := ih hp.2
    by_cases hfe : f.ext = e
    · have hnm : f.ext ∉ pats := hfe ▸ hp.1
      rw [if_neg hnm] at ihh
      have hcond : f.ext ∈ e :: pats := by simp [hfe]
      rw [if_pos hcond]
      simp only [ordFiles, List.filter_cons, hfe, beq_self_eq_true, if_pos rfl]
      exact List.Perm.cons f (List.Perm.append_left _ ihh)
    · have hfilter : (f :: fs).filter (fun g => g.ext == e) =
          fs.filter (fun g => g.ext == e) := by
        simp [List.filter_cons, hfe]
      by_cases hm : f.ext ∈ pats
      · rw [if_pos hm] at ihh
        have hcond : f.ext ∈ e :: pats := List.mem_cons_of_mem e hm
        rw [if_pos hcond]
        simp only [ordFiles, hfilter]
        exact (List.Perm.append_left _ ihh).trans List.perm_middle
      · rw [if_neg hm] at ihh
        have hcond : f.ext ∉ e :: pats := by
          simp only [List.mem_cons, not_or]
          exact ⟨hfe, hm⟩
        rw [if_neg hcond]
        simp only [ordFiles, hfilter]
        exact List.Perm.append_left _ ihh

theorem ordFiles_perm (pats : List String) (fs : List FileEntry) :
    pats.Nodup →
    List.Perm (ordFiles pats fs) (fs.filter (fun f => pats.contains f.ext)) := by
  induction fs with
  | nil => intro _; simp [ordFiles_nil]
  | cons f fs ih =>
    intro hp
    have h1 := ordFiles_cons_perm pats f fs hp
    rw [List.filter_cons]
    by_cases hm : f.ext ∈ pats
    · rw [if_pos hm] at h1
      have hc : pats.contains f.ext = true := List.elem_iff.mpr hm
      rw [if_pos hc]
      exact h1.trans (List.Perm.cons f (ih hp))
    · rw [if_neg hm] at h1
      have hc : ¬ pats.contains f.ext = true := by
        intro hcontra
        exact hm (List.elem_iff.mp hcontra)
      rw [if_neg hc]
      exact h1.trans (ih hp)

/-! ## Voice catalog: the claims -/

/-- Counterexample to C4 as stated: scanning a directory that contains a
recognized file whose stem is exactly "Custom Voice" overwrites the sentinel
with that file's path — nothing re-asserts the sentinel after the scan loop,
so its value is not null. -/
theorem sentinel_overwritten_cex :
    lookupName (scan_preset_voices "/presets" [⟨"Custom Voice", "wav"⟩]) "Custom Voice" =
      some (some "/presets/Custom Voice.wav") ∧
    lookupName (scan_preset_voices "/presets" [⟨"Custom Voice", "wav"⟩]) "Custom Voice" ≠
      some none := by
  refine ⟨?_, ?_⟩ <;> decide

/-- Claim C4 amended — the key "Custom Voice" is always present in the scan
result (it is inserted before the loop and dict assignment never removes a
key), and its value is null provided no recognized file in the directory has
stem exactly "Custom Voice"; a recognized file with that stem overwrites the
sentinel's value with the file's path (the scanned file wins, not the
sentinel). -/
theorem sentinel_always_key (d : String) (fs : List FileEntry) :
    "Custom Voice" ∈ keysOf (scan_preset_voices d fs) ∧
    ((∀ f ∈ fs, f.ext ∈ recognizedExtensions → f.stem ≠ "Custom Voice") →
      lookupName (scan_preset_voices d fs) "Custom Voice" = some none) := by
  constructor
  · rw [scan_eq_foldl_ordFiles]
    exact (mem_keysOf_foldFiles d _ _ _).mpr (Or.inl (by simp [keysOf]))
  · intro h
    rw [scan_eq_foldl_ordFiles,
        lookupName_foldFiles d _ _ _ ?stems]
    · rfl
    case stems =>
      intro f hf
      have hm := (mem_ordFiles _ _ f).mp hf
      exact h f hm.1 hm.2

/-- Witness for C4 (amended) on a concrete directory with one ordinary
preset file. -/
theorem sentinel_always_key_witness :
    "Custom Voice" ∈ keysOf (scan_preset_voices "/presets" [⟨"alice", "wav"⟩]) ∧
    lookupName (scan_preset_voices "/presets" [⟨"alice", "wav"⟩]) "Custom Voice" = some none :=
  ⟨(sentinel_always_key "/presets" [⟨"alice", "wav"⟩]).1,
   (sentinel_always_key "/presets" [⟨"alice", "wav"⟩]).2 (by decide)⟩

/-- Counterexample to C7 as stated: `Path.glob` patterns are matched
case-sensitively on a POSIX filesystem, so a file differing from the
allow-list only in letter case ("ALICE.WAV") is NOT included: the scan of a
directory holding only that file returns just the sentinel. -/
theorem scan_case_sensitive_cex :
    "ALICE" ∉ keysOf (scan_preset_voices "/presets" [⟨"ALICE", "WAV"⟩]) ∧
    keysOf (scan_preset_voices "/presets" [⟨"ALICE", "WAV"⟩]) = ["Custom Voice"] := by
  refine ⟨?_, ?_⟩ <;> decide

/-- Claim C7 amended — the scan enumerates exactly the files directly inside
the directory whose extension matches the fixed allow-list with exact
(lowercase) case: a name is a key of the result iff it is the sentinel or the
stem of a direct entry whose extension is literally one of
`wav, mp3, ogg, flac, mp4, mov, mkv, webm`. -/
theorem scan_keys_characterization (d : String) (fs : List FileEntry) (k : String) :
    k ∈ keysOf (scan_preset_voices d fs) ↔
      k = "Custom Voice" ∨ ∃ f ∈ fs, f.stem = k ∧ f.ext ∈ recognizedExtensions := by
  rw [scan_eq_foldl_ordFiles, mem_keysOf_foldFiles]
  have h1 : (k ∈ keysOf [("Custom Voice", (none : Option String))]) ↔ k = "Custom Voice" := by
    simp [keysOf]
  rw [h1]
  apply or_congr Iff.rfl
  constructor
  · rintro ⟨f, hf, hst⟩
    have hm := (mem_ordFiles _ _ f).mp hf
    exact ⟨f, hm.1, hst, hm.2⟩
  · rintro ⟨f, hf, hst, hext⟩
    exact ⟨f, (mem_ordFiles _ _ f).mpr ⟨hf, hext⟩, hst⟩

/-- Counterexample to C8 as stated: a directory with two recognized files
sharing one stem (`a.wav`, `a.mp3`) has N = 2 matching files, but the scan
returns 2 entries (the shared stem collapses), not N + 1 = 3. -/
theorem scan_count_cex :
    (recognizedFiles [⟨"a", "wav"⟩, ⟨"a", "mp3"⟩]).length = 2 ∧
    (scan_preset_voices "/p" [⟨"a", "wav"⟩, ⟨"a", "mp3"⟩]).length = 2 ∧
    (scan_preset_voices "/p" [⟨"a", "wav"⟩, ⟨"a", "mp3"⟩]).length ≠
      (recognizedFiles [⟨"a", "wav"⟩, ⟨"a", "mp3"⟩]).length + 1 := by
  refine ⟨?_, ?_, ?_⟩ <;> decide

/-- Claim C8 amended — when the N recognized files have pairwise distinct
stems, none of which is "Custom Voice", the scan returns exactly N + 1
entries (the N files plus the sentinel) and the sentinel's value is null;
stem collisions (with each other or with the sentinel) collapse entries. -/
theorem scan_entry_count (d : String) (fs : List FileEntry) :
    ((recognizedFiles fs).map FileEntry.stem).Nodup →
    (∀ f ∈ recognizedFiles fs, f.stem ≠ "Custom Voice") →
    (scan_preset_voices d fs).length = (recognizedFiles fs).length + 1 ∧
    lookupName (scan_preset_voices d fs) "Custom Voice" = some none := by
  intro hnd hcv
  have hperm := ordFiles_perm recognizedExtensions fs (by decide)
  have hpermMap := hperm.map FileEntry.stem
  have hnd2 : ((ordFiles recognizedExtensions fs).map FileEntry.stem).Nodup :=
    hpermMap.nodup_iff.mpr hnd
  have hfresh : ∀ f ∈ ordFiles recognizedExtensions fs,
      f.stem ∉ keysOf [("Custom Voice", (none : Option String))] := by
    intro f hf
    have hmem : f ∈ recognizedFiles fs := hperm.mem_iff.mp hf
    simp [keysOf]
    exact hcv f hmem
  rw [scan_eq_foldl_ordFiles, foldFiles_append d _ _ hfresh hnd2]
  constructor
  · have hlen : (ordFiles recognizedExtensions fs).length = (recognizedFiles fs).length :=
      hperm.length_eq
    simp only [List.length_append, List.length_map, List.length_cons, List.length_nil, hlen]
    omega
  · simp [lookupName]

/-- Witness for C8 (amended): two recognized files with distinct stems plus a
non-matching file give exactly three entries with a null sentinel. -/
theorem scan_entry_count_witness :
    (scan_preset_voices "/p" [⟨"alice", "wav"⟩, ⟨"bob", "mp3"⟩, ⟨"notes", "txt"⟩]).length =
      (recognizedFiles [⟨"alice", "wav"⟩, ⟨"bob", "mp3"⟩, ⟨"notes", "txt"⟩]).length + 1 ∧
    lookupName (scan_preset_voices "/p" [⟨"alice", "wav"⟩, ⟨"bob", "mp3"⟩, ⟨"notes", "txt"⟩])
      "Custom Voice" = some none :=
  scan_entry_count "/p" [⟨"alice", "wav"⟩, ⟨"bob", "mp3"⟩, ⟨"notes", "txt"⟩]
    (by decide) (by decide)

end ZonosGUI
